import Mathlib

/-!
Verification of the gemini-chatbot-client repository: a shallow embedding of
the Express proxy server (server/index.js) and the React chat client
(src/app/page.js), with theorems about the behaviours described in the spec.

Conventions of the embedding:
* JavaScript strings are Lean `String`s; `jsTrim` stands for JS
  `String.prototype.trim` (both strip leading/trailing whitespace; the claims
  only depend on whether a string is empty/whitespace-only).
* A possibly-absent (`undefined`) value is an `Option`.
* `buffer.toString("base64")` is modelled by the injective constructor
  `B64.encode`: no claim depends on the concrete base64 alphabet, only on
  which bytes were encoded.
* The external generative API (`genAI`) is a parameter of each handler: a
  function returning `Except e t`, where `Except.error` models a thrown
  upstream error carrying `error.message`.
-/

namespace GeminiProxy

/-- Characters of a string with leading and trailing whitespace removed. -/
def trimChars (s : List Char) : List Char :=
  ((s.dropWhile Char.isWhitespace).reverse.dropWhile Char.isWhitespace).reverse

/-- JS `String.prototype.trim`: strip leading and trailing whitespace.
(Defined over the character list so that it evaluates by kernel reduction;
the claims only depend on whether the result is empty.) -/
def jsTrim (s : String) : String :=
  ⟨trimChars s.data⟩

/-- A history entry as received in the JSON body of POST /chat.  `nonObject`
covers entries failing `typeof msg === "object" && msg !== null`; for objects,
`role`/`text` are `none` when the property is absent or not a string
(`msg.role === "user"` and `typeof msg.text === "string"` both fail then). -/
inductive HistEntry where
  | nonObject
  | object (role : Option String) (text : Option String)
deriving DecidableEq

/-- Property read `msg.role` (undefined on a non-object entry; such entries
never reach the code that reads it, because validation rejects them). -/
def entryRole : HistEntry → Option String
  | .nonObject => none
  | .object r _ => r

/-- Property read `msg.text`. -/
def entryText : HistEntry → Option String
  | .nonObject => none
  | .object _ t => t

/-- The per-entry predicate inside `history.every(...)` in POST /chat:
an object with role `"user"` or `"model"` and a non-empty (after trim)
string `text`. -/
def validEntry : HistEntry → Bool
  | .nonObject => false
  | .object r t =>
      (r == some "user" || r == some "model") &&
      (match t with
       | some s => !(jsTrim s == "")
       | none => false)

/-- `isValidHistory` from POST /chat: `Array.isArray(history) &&
history.every(validEntry)` (the request model already guarantees an array). -/
def isValidHistory (history : List HistEntry) : Bool :=
  history.all validEntry

/-- An element of `formattedHistory`: `{ role: msg.role, parts: [{ text:
msg.text }] }`.  Fields keep the `Option` of a JS property read. -/
structure FormattedMsg where
  role : Option String
  parts : List (Option String)
deriving DecidableEq

/-- The map body building `formattedHistory` from `recentHistory`. -/
def formatMsg (e : HistEntry) : FormattedMsg :=
  { role := entryRole e, parts := [entryText e] }

/-- JS `Array.prototype.slice(start)` with a single (possibly negative)
integer argument: elements from index `max(len+start,0)` (negative start)
or `min(start,len)` (non-negative start) to the end. -/
def jsSliceStart (l : List α) (start : Int) : List α :=
  let len : Int := l.length
  let k : Int := if start < 0 then max (len + start) 0 else min start len
  l.drop k.toNat

/-- `history.slice(-historyLimit)` from POST /chat. -/
def recentHistory (history : List HistEntry) (historyLimit : Int) : List HistEntry :=
  jsSliceStart history (-historyLimit)

/-- `recentHistory.map(msg => ({role: msg.role, parts: [{text: msg.text}]}))`. -/
def formattedHistory (l : List HistEntry) : List FormattedMsg :=
  l.map formatMsg

/-- The body of a POST /chat request after `const { message, history = [],
historyLimit = 10 } = req.body`.  `message = none` covers a missing or
non-string field (`typeof message !== "string"`); `historyLimit = none` means
the field was absent, so the destructuring default 10 applies. -/
structure ChatReq where
  message : Option String
  history : List HistEntry
  historyLimit : Option Int
deriving DecidableEq

/-- What the /chat handler decides before contacting the external API:
either an early 400 response, or a call to `genAI.chats.create` +
`chat.sendMessage` with the formatted truncated history and the message. -/
inductive ChatAction where
  | respond400 (error : String)
  | callApi (history : List FormattedMsg) (message : String)
deriving DecidableEq

def msgRequiredErr : String :=
  "Message is required and must be a non-empty string."

def invalidHistoryErr : String :=
  "Invalid history format. Each message must be an object with \x27role\x27 (\x27user\x27 or \x27model\x27) and non-empty \x27text\x27."

/-- The validation and history-shaping part of `app.post("/chat")`
(server/index.js lines 224-262), up to the external call. -/
def chatStep (req : ChatReq) : ChatAction :=
  match req.message with
  | none => .respond400 msgRequiredErr
  | some message =>
    if jsTrim message == "" then
      .respond400 msgRequiredErr
    else
      let history := req.history
      if !isValidHistory history && decide (history.length > 0) then
        .respond400 invalidHistoryErr
      else
        .callApi (formattedHistory (recentHistory history (req.historyLimit.getD 10))) message

/-- The history POST /chat forwards to the external API for a request that
passes validation. -/
def chatForwarded (req : ChatReq) : List FormattedMsg :=
  formattedHistory (recentHistory req.history (req.historyLimit.getD 10))

/-- A JSON response body: `{output: ...}` or `{error: ...}`. -/
inductive RespBody where
  | output (text : String)
  | error (message : String)
deriving DecidableEq

structure HttpResponse where
  status : Nat
  body : RespBody
deriving DecidableEq

/-- The whole /chat handler: validation, then the try/catch around the
external call.  A thrown upstream error is `Except.error` carrying
`error.message`; the catch branch answers
`res.status(500).json({ error: error.message || "Internal Server Error" })`
(an empty message is falsy, so the fallback string is used). -/
def chatRun (req : ChatReq) (api : List FormattedMsg → String → Except String String) :
    HttpResponse :=
  match chatStep req with
  | .respond400 e => ⟨400, .error e⟩
  | .callApi hist message =>
    match api hist message with
    | .ok text => ⟨200, .output text⟩
    | .error e => ⟨500, .error (if e == "" then "Internal Server Error" else e)⟩

/-- A content part sent to `genAI.models.generateContent`: a text segment or
an inline-data segment (base64 data plus MIME type). -/
inductive B64 where
  | encode (raw : String)
deriving DecidableEq

inductive Part where
  | text (s : String)
  | inlineData (data : B64) (mimeType : String)
deriving DecidableEq

/-- What /generate-text decides before contacting the external API. -/
inductive GenAction where
  | respond400 (error : String)
  | callApi (contents : List Part)
deriving DecidableEq

/-- The validation part of `app.post("/generate-text")` (lines 87-106).
The outer `Option` is `req.body` (`!req.body` check); the inner one is the
`prompt` field, where `!prompt` is true for an absent field or the empty
string. -/
def generateTextStep (body : Option (Option String)) : GenAction :=
  match body with
  | none => .respond400 "No body provided"
  | some prompt =>
    match prompt with
    | none => .respond400 "Prompt is required"
    | some p =>
      if p == "" then .respond400 "Prompt is required"
      else .callApi [Part.text p]

/-- JS `a || b` for a possibly-absent string `a`: the default is taken when
the value is `undefined` or the empty string. -/
def jsOr (v : Option String) (d : String) : String :=
  match v with
  | some s => if s == "" then d else s
  | none => d

/-- A file stored by multer: `req.file` with its `path`, its byte contents
(what `fs.readFileSync(req.file.path)` returns), and `mimetype`. -/
structure UploadFile where
  path : String
  contents : String
  mimetype : Option String
deriving DecidableEq

/-- Observable side effects of an attachment handler, in order:
`fs.readFileSync`, `deleteUploadedFile` (fs.unlinkSync), the external
`generateContent` call, and sending the HTTP response. -/
inductive Ev where
  | readFile (path : String)
  | deleteFile (path : String)
  | apiCall (contents : List Part)
  | respond (status : Nat)
deriving DecidableEq

/-- How an attachment handler terminates: a synchronous JS exception escaping
the async handler (never converted to a JSON response by this code), or an
HTTP response. -/
inductive JsOutcome where
  | thrown (message : String)
  | response (r : HttpResponse)
deriving DecidableEq

structure AttachOutcome where
  trace : List Ev
  outcome : JsOutcome
deriving DecidableEq

/-- The TypeError raised by `fs.readFileSync(req.file.path)` when no file was
uploaded (`req.file` is undefined). -/
def typeErrorNoFile : String :=
  "TypeError: Cannot read properties of undefined (reading \x27path\x27)"

/-- `app.post("/generate-from-image")` (lines 114-147).  Note the source
reads `req.file.path` (line 116) before the `if (!req.file)` guard
(line 126): with no file the handler throws and the guard is dead code. -/
def generateFromImage (promptOpt : Option String) (fileOpt : Option UploadFile)
    (api : List Part → Except String String) : AttachOutcome :=
  let prompt := jsOr promptOpt "Describe the image"
  match fileOpt with
  | none => ⟨[], .thrown typeErrorNoFile⟩
  | some f =>
    let base64Data := B64.encode f.contents
    let mimeType := jsOr f.mimetype "image/png"
    let imagePart := Part.inlineData base64Data mimeType
    if (some f : Option UploadFile).isNone then
      ⟨[.readFile f.path, .deleteFile f.path, .respond 400],
       .response ⟨400, .error "No image file provided"⟩⟩
    else
      let contents := [Part.text prompt, imagePart]
      match api contents with
      | .ok t =>
        ⟨[.readFile f.path, .deleteFile f.path, .apiCall contents, .respond 200],
         .response ⟨200, .output t⟩⟩
      | .error e =>
        ⟨[.readFile f.path, .deleteFile f.path, .apiCall contents, .respond 500],
         .response ⟨500, .error e⟩⟩

/-- `app.post("/generate-from-document")` (lines 149-186); same structure as
the image endpoint (the delete happens between the read and the base64
conversion, which changes no observable event order). -/
def generateFromDocument (promptOpt : Option String) (fileOpt : Option UploadFile)
    (api : List Part → Except String String) : AttachOutcome :=
  let prompt := jsOr promptOpt "Summarize the document"
  match fileOpt with
  | none => ⟨[], .thrown typeErrorNoFile⟩
  | some f =>
    let base64Data := B64.encode f.contents
    let mimeType := jsOr f.mimetype "application/pdf"
    if (some f : Option UploadFile).isNone then
      ⟨[.readFile f.path, .deleteFile f.path, .respond 400],
       .response ⟨400, .error "No document file provided"⟩⟩
    else
      let documentPart := Part.inlineData base64Data mimeType
      let contents := [Part.text prompt, documentPart]
      match api contents with
      | .ok t =>
        ⟨[.readFile f.path, .deleteFile f.path, .apiCall contents, .respond 200],
         .response ⟨200, .output t⟩⟩
      | .error e =>
        ⟨[.readFile f.path, .deleteFile f.path, .apiCall contents, .respond 500],
         .response ⟨500, .error e⟩⟩

/-- `app.post("/generate-from-audio")` (lines 188-221). -/
def generateFromAudio (promptOpt : Option String) (fileOpt : Option UploadFile)
    (api : List Part → Except String String) : AttachOutcome :=
  let prompt := jsOr promptOpt "Transcribe the audio"
  match fileOpt with
  | none => ⟨[], .thrown typeErrorNoFile⟩
  | some f =>
    let base64Data := B64.encode f.contents
    let mimeType := jsOr f.mimetype "audio/mpeg"
    let audioPart := Part.inlineData base64Data mimeType
    if (some f : Option UploadFile).isNone then
      ⟨[.readFile f.path, .deleteFile f.path, .respond 400],
       .response ⟨400, .error "No audio file provided"⟩⟩
    else
      let contents := [Part.text prompt, audioPart]
      match api contents with
      | .ok t =>
        ⟨[.readFile f.path, .deleteFile f.path, .apiCall contents, .respond 200],
         .response ⟨200, .output t⟩⟩
      | .error e =>
        ⟨[.readFile f.path, .deleteFile f.path, .apiCall contents, .respond 500],
         .response ⟨500, .error e⟩⟩

end GeminiProxy

namespace ChatClient

open GeminiProxy

/-- A client-side message `{ sender, text }` as stored in the `messages`
state and in local storage. -/
structure CMsg where
  sender : String
  text : String
deriving DecidableEq

/-- A `{ role, text }` entry of the `history` field the client sends to the
proxy (`messagesForHistory.map(msg => ({role: msg.sender, text: msg.text}))`). -/
structure HistoryMsg where
  role : String
  text : String
deriving DecidableEq

def toHistoryMsg (m : CMsg) : HistoryMsg :=
  { role := m.sender, text := m.text }

/-- How the proxy parses one wire history entry: a JSON object whose `role`
and `text` properties are the sent strings. -/
def toServerEntry (m : HistoryMsg) : HistEntry :=
  .object (some m.role) (some m.text)

/-- The JSON body of the fetch to the proxy /chat endpoint. -/
structure SentRequest where
  message : String
  history : List HistoryMsg
  historyLimit : Int
deriving DecidableEq

/-- Outcome of the `fetch` inside handleSubmit: a rejected promise (network
error), or a response with its `ok` flag and the `output` field of its JSON
body (`none` when absent; `data?.output || ...` also treats `""` as absent). -/
inductive FetchRes where
  | netError
  | resp (ok : Bool) (output : Option String)
deriving DecidableEq

/-- The `messages` state right after the optimistic
`setMessages(prev => [...prev, {sender:"user", text:userMessage}])`. -/
def optimisticMessages (messages : List CMsg) (rawInput : String) : List CMsg :=
  messages ++ [{ sender := "user", text := jsTrim rawInput }]

def failedFetchText : String := "Failed to fetch response. Please try again."

/-- Result of one run of `handleSubmit` (page.js lines 25-76): the final
`messages` state, the final `isLoading` flag, the request sent to the proxy
(`none` when the early `if (!userMessage) return` fires), and any error
rethrown out of the handler (always `none`: the catch block swallows it). -/
structure SubmitResult where
  messages : List CMsg
  isLoading : Bool
  request : Option SentRequest
  rethrown : Option String
deriving DecidableEq

/-- `handleSubmit`, run from a non-loading state (the form is disabled while
`isLoading`, so the handler only fires with `isLoading = false`).
`rawInput` is `inputRef.current.value`; `r` is the outcome of the fetch. -/
def handleSubmit (messages : List CMsg) (rawInput : String) (r : FetchRes) :
    SubmitResult :=
  let userMessage := jsTrim rawInput
  if userMessage == "" then
    { messages := messages, isLoading := false, request := none, rethrown := none }
  else
    let messagesForHistory := messages
    let afterUser := messages ++ [{ sender := "user", text := userMessage }]
    let history := messagesForHistory.map toHistoryMsg
    let req : SentRequest := { message := userMessage, history := history, historyLimit := 10 }
    match r with
    | .netError =>
      { messages := afterUser ++ [{ sender := "model", text := failedFetchText }],
        isLoading := false, request := some req, rethrown := none }
    | .resp false _ =>
      { messages := afterUser ++ [{ sender := "model", text := failedFetchText }],
        isLoading := false, request := some req, rethrown := none }
    | .resp true output =>
      let botReply := jsOr output "No response from Gemini."
      { messages := afterUser ++ [{ sender := "model", text := botReply }],
        isLoading := false, request := some req, rethrown := none }

/-- Client state: the in-memory `messages` list and the
`"gemini-chat-history"` local-storage entry.  The entry holds the JSON
serialization of a message list (injective, and truthy whenever present:
`JSON.stringify` of an array is never the empty string), so it is modelled
as the list itself; `none` is an absent entry (`getItem` returns null). -/
structure Client where
  messages : List CMsg
  storage : Option (List CMsg)
deriving DecidableEq

/-- The `useEffect([messages])` mirror: `localStorage.setItem(key,
JSON.stringify(messages))` after every messages change. -/
def syncEffect (c : Client) : Client :=
  { c with storage := some c.messages }

/-- The Clear Chat onClick (`setMessages([]); localStorage.removeItem(key)`),
followed by the messages effect that React runs after the state update. -/
def clearChat (_c : Client) : Client :=
  syncEffect { messages := [], storage := none }

/-- A page load: mount with `messages = []`, run the load effect
(`if (savedMessages) setMessages(JSON.parse(savedMessages))`), then the
messages effect. -/
def reload (storage : Option (List CMsg)) : Client :=
  let loaded := match storage with
    | some saved => saved
    | none => []
  syncEffect { messages := loaded, storage := storage }

end ChatClient

open GeminiProxy ChatClient

/-! Helper lemmas shared by the claim theorems. -/

theorem jsSliceStart_negNat (l : List α) (N : Nat) (hN : 0 < N) :
    jsSliceStart l (-(N : Int)) = l.drop (l.length - N) := by
  simp only [jsSliceStart]
  have h1 : (-(N : Int) < 0) := by omega
  rw [if_pos h1]
  congr 1
  rw [max_def]
  split <;> omega

theorem jsSliceStart_zero (l : List α) :
    jsSliceStart l 0 = l := by
  simp only [jsSliceStart]
  norm_num

theorem chatStep_eq_callApi (req : ChatReq) (m : String)
    (hm : req.message = some m) (hmt : ¬ jsTrim m = "")
    (hv : isValidHistory req.history = true) :
    chatStep req = .callApi (chatForwarded req) m := by
  have h1 : (jsTrim m == "") = false := by simp [hmt]
  have h2 : (!isValidHistory req.history && decide (req.history.length > 0)) = false := by
    simp [hv]
  simp only [chatStep, hm, h1, h2, Bool.false_eq_true, if_false]
  rfl

/-- C1: for every valid history and positive history limit N (default 10)
sent to POST /chat, the history forwarded to the external API is the full
history when its length is at most N, and exactly the last N entries in
order when it is longer, each entry keeping its role and text. -/
theorem chat_history_window (req : ChatReq) (m : String) (N : Nat)
    (hm : req.message = some m) (hmt : ¬ jsTrim m = "")
    (hv : isValidHistory req.history = true)
    (hN : req.historyLimit.getD 10 = (N : Int)) (hNpos : 0 < N) :
    (req.history.length ≤ N →
        chatStep req = .callApi (req.history.map formatMsg) m) ∧
    (N < req.history.length →
        chatStep req
          = .callApi ((req.history.drop (req.history.length - N)).map formatMsg) m) ∧
    (∀ e : HistEntry, (formatMsg e).role = entryRole e ∧ (formatMsg e).parts = [entryText e]) := by
  have hstep := chatStep_eq_callApi req m hm hmt hv
  rw [chatForwarded, hN, recentHistory, jsSliceStart_negNat _ _ hNpos] at hstep
  refine ⟨?_, ?_, fun e => ⟨rfl, rfl⟩⟩
  · intro hle
    have hz : req.history.length - N = 0 := by omega
    rw [hstep, hz, List.drop_zero]
    rfl
  · intro _
    exact hstep

/-- Witness for C1 at a history of length 3 with limit 2: the forwarded
history is the last two entries, formatted. -/
theorem chat_history_window_witness :
    chatStep ⟨some "Hi", [.object (some "user") (some "a"),
        .object (some "model") (some "b"), .object (some "user") (some "c")], some 2⟩
      = .callApi [⟨some "model", [some "b"]⟩, ⟨some "user", [some "c"]⟩] "Hi" := by
  have h := chat_history_window
    ⟨some "Hi", [.object (some "user") (some "a"),
        .object (some "model") (some "b"), .object (some "user") (some "c")], some 2⟩
    "Hi" 2 rfl (by decide) (by decide) rfl (by decide)
  exact h.2.1 (by decide)

/-- C2: a POST /chat request with a missing, empty or whitespace-only
message, and a POST /generate-text request with a missing or empty prompt,
are answered 400 before the external API is contacted. -/
theorem empty_prompt_rejected (req : ChatReq) (prompt : Option String)
    (hreq : req.message = none ∨ ∃ s, req.message = some s ∧ jsTrim s = "")
    (hp : prompt = none ∨ prompt = some "") :
    (∃ e, chatStep req = .respond400 e) ∧
    (∃ e, generateTextStep (some prompt) = .respond400 e) := by
  constructor
  · rcases hreq with h | ⟨s, hs, ht⟩
    · exact ⟨msgRequiredErr, by simp [chatStep, h]⟩
    · exact ⟨msgRequiredErr, by simp [chatStep, hs, ht]⟩
  · rcases hp with h | h <;>
      exact ⟨"Prompt is required", by simp [generateTextStep, h]⟩

/-- Witness for C2: a whitespace-only chat message and an absent prompt. -/
theorem empty_prompt_rejected_witness :
    (∃ e, chatStep ⟨some "  ", [], none⟩ = .respond400 e) ∧
    (∃ e, generateTextStep (some none) = .respond400 e) :=
  empty_prompt_rejected ⟨some "  ", [], none⟩ none
    (Or.inr ⟨"  ", rfl, by decide⟩) (Or.inl rfl)

/-- C3: a POST /chat request whose (necessarily non-empty) history contains
a malformed entry is rejected with a 400 before any external call. -/
theorem invalid_history_rejected (req : ChatReq) (e : HistEntry)
    (hmem : e ∈ req.history) (hbad : validEntry e = false) :
    ∃ msg, chatStep req = .respond400 msg := by
  have hinv : isValidHistory req.history = false := by
    rw [isValidHistory, List.all_eq_false]
    exact ⟨e, hmem, by simp [hbad]⟩
  cases hmsg : req.message with
  | none => exact ⟨msgRequiredErr, by simp [chatStep, hmsg]⟩
  | some m =>
    by_cases ht : (jsTrim m == "") = true
    · exact ⟨msgRequiredErr, by simp [chatStep, hmsg, ht]⟩
    · have hlen : req.history.length > 0 :=
        List.length_pos.mpr (List.ne_nil_of_mem hmem)
      exact ⟨invalidHistoryErr, by simp [chatStep, hmsg, ht, hinv, hlen]⟩

/-- Witness for C3: a history entry with role "assistant". -/
theorem invalid_history_rejected_witness :
    ∃ msg, chatStep ⟨some "Hi", [.object (some "assistant") (some "x")], none⟩
        = .respond400 msg :=
  invalid_history_rejected _ (.object (some "assistant") (some "x"))
    (by simp) (by decide)

/-- C10: with historyLimit 0 and a valid non-empty history, POST /chat
forwards the entire history (slice(-0) is slice(0)), not zero entries. -/
theorem chat_zero_limit_full_history (req : ChatReq) (m : String)
    (hm : req.message = some m) (hmt : ¬ jsTrim m = "")
    (hv : isValidHistory req.history = true)
    (hl : req.historyLimit = some 0) (hne : req.history ≠ []) :
    chatStep req = .callApi (req.history.map formatMsg) m ∧
    (req.history.map formatMsg).length = req.history.length ∧
    req.history.length ≠ 0 := by
  have hstep := chatStep_eq_callApi req m hm hmt hv
  rw [chatForwarded, hl] at hstep
  refine ⟨?_, List.length_map _ _, fun hz => hne (List.length_eq_zero.mp hz)⟩
  rw [hstep]
  simp only [Option.getD, recentHistory, neg_zero, jsSliceStart_zero]
  rfl

/-- Witness for C10: one valid entry, limit 0; the whole history is
forwarded. -/
theorem chat_zero_limit_full_history_witness :
    chatStep ⟨some "Hi", [.object (some "user") (some "a")], some 0⟩
      = .callApi [⟨some "user", [some "a"]⟩] "Hi" :=
  (chat_zero_limit_full_history ⟨some "Hi", [.object (some "user") (some "a")], some 0⟩
    "Hi" rfl (by decide) (by decide) rfl (by decide)).1

/-- C4 (code bug): with no uploaded file, each attachment endpoint throws a
TypeError at `req.file.path` before reaching its `if (!req.file)` guard, so
the documented 400 response is never produced. -/
theorem attach_no_file_throws :
    (generateFromImage none none (fun _ => Except.error "unused")).outcome
        = .thrown typeErrorNoFile ∧
    (generateFromDocument none none (fun _ => Except.error "unused")).outcome
        = .thrown typeErrorNoFile ∧
    (generateFromAudio none none (fun _ => Except.error "unused")).outcome
        = .thrown typeErrorNoFile :=
  ⟨rfl, rfl, rfl⟩

/-- C5: every attachment request that does provide a file reads it, deletes
the temporary file immediately afterwards, and only then calls the external
API and sends a response — so the delete happens whether the external call
succeeds or fails. -/
theorem attach_deletes_file (p : Option String) (f : UploadFile)
    (api : List Part → Except String String) :
    (∃ parts st, (generateFromImage p (some f) api).trace
        = [.readFile f.path, .deleteFile f.path, .apiCall parts, .respond st]) ∧
    (∃ parts st, (generateFromDocument p (some f) api).trace
        = [.readFile f.path, .deleteFile f.path, .apiCall parts, .respond st]) ∧
    (∃ parts st, (generateFromAudio p (some f) api).trace
        = [.readFile f.path, .deleteFile f.path, .apiCall parts, .respond st]) := by
  refine ⟨?_, ?_, ?_⟩
  · cases hapi : api [Part.text (jsOr p "Describe the image"),
        Part.inlineData (B64.encode f.contents) (jsOr f.mimetype "image/png")] with
    | ok t =>
      exact ⟨[Part.text (jsOr p "Describe the image"),
        Part.inlineData (B64.encode f.contents) (jsOr f.mimetype "image/png")], 200,
        by simp [generateFromImage, hapi]⟩
    | error e =>
      exact ⟨[Part.text (jsOr p "Describe the image"),
        Part.inlineData (B64.encode f.contents) (jsOr f.mimetype "image/png")], 500,
        by simp [generateFromImage, hapi]⟩
  · cases hapi : api [Part.text (jsOr p "Summarize the document"),
        Part.inlineData (B64.encode f.contents) (jsOr f.mimetype "application/pdf")] with
    | ok t =>
      exact ⟨[Part.text (jsOr p "Summarize the document"),
        Part.inlineData (B64.encode f.contents) (jsOr f.mimetype "application/pdf")], 200,
        by simp [generateFromDocument, hapi]⟩
    | error e =>
      exact ⟨[Part.text (jsOr p "Summarize the document"),
        Part.inlineData (B64.encode f.contents) (jsOr f.mimetype "application/pdf")], 500,
        by simp [generateFromDocument, hapi]⟩
  · cases hapi : api [Part.text (jsOr p "Transcribe the audio"),
        Part.inlineData (B64.encode f.contents) (jsOr f.mimetype "audio/mpeg")] with
    | ok t =>
      exact ⟨[Part.text (jsOr p "Transcribe the audio"),
        Part.inlineData (B64.encode f.contents) (jsOr f.mimetype "audio/mpeg")], 200,
        by simp [generateFromAudio, hapi]⟩
    | error e =>
      exact ⟨[Part.text (jsOr p "Transcribe the audio"),
        Part.inlineData (B64.encode f.contents) (jsOr f.mimetype "audio/mpeg")], 500,
        by simp [generateFromAudio, hapi]⟩

/-- C6 counterexample: for the valid request {message:"Hi", history:[],
historyLimit:10}, an upstream error whose message is the empty string is not
relayed verbatim: the handler answers {error:"Internal Server Error"}
because of the `error.message || "Internal Server Error"` fallback. -/
theorem chat_error_verbatim_cex :
    chatRun ⟨some "Hi", [], some 10⟩ (fun _ _ => Except.error "")
        = ⟨500, .error "Internal Server Error"⟩ ∧
    ("Internal Server Error" : String) ≠ "" :=
  ⟨rfl, by decide⟩

/-- C6 (amended): for every valid POST /chat request, success of the
external call gives 200 {output: text}, and a thrown upstream error gives
500 with the upstream message when it is non-empty and the fallback
"Internal Server Error" when it is empty. -/
theorem chat_outcome (req : ChatReq) (m : String)
    (api : List FormattedMsg → String → Except String String)
    (hm : req.message = some m) (hmt : ¬ jsTrim m = "")
    (hv : isValidHistory req.history = true) :
    (∀ t, api (chatForwarded req) m = .ok t → chatRun req api = ⟨200, .output t⟩) ∧
    (∀ e, api (chatForwarded req) m = .error e →
        chatRun req api = ⟨500, .error (if e == "" then "Internal Server Error" else e)⟩) := by
  have hstep := chatStep_eq_callApi req m hm hmt hv
  constructor
  · intro t ht
    simp [chatRun, hstep, ht]
  · intro e he
    simp only [chatRun, hstep, he]

/-- Witness for C6 (amended): the example request with a successful
upstream call. -/
theorem chat_outcome_witness :
    chatRun ⟨some "Hi", [], some 10⟩ (fun _ _ => Except.ok "Hello")
        = ⟨200, .output "Hello"⟩ :=
  (chat_outcome ⟨some "Hi", [], some 10⟩ "Hi" (fun _ _ => Except.ok "Hello")
    rfl (by decide) rfl).1 "Hello" rfl

/-- C7: on a submit, the request carries exactly the prior messages; the
displayed history at transmission time is that history plus the new user
message (a strict superset); the final displayed history only grows from
there; server-side truncation only drops a prefix of what was transmitted;
and the storage mirror always persists exactly the displayed list. -/
theorem client_displayed_superset (msgs : List CMsg) (input : String) (r : FetchRes)
    (h : ¬ jsTrim input = "") :
    ∃ rq, (handleSubmit msgs input r).request = some rq ∧
      rq.history = msgs.map toHistoryMsg ∧
      (optimisticMessages msgs input).map toHistoryMsg
          = rq.history ++ [{ role := "user", text := jsTrim input }] ∧
      (∃ reply, (handleSubmit msgs input r).messages
          = optimisticMessages msgs input ++ [reply]) ∧
      (∀ limit : Int, ∃ k, recentHistory (rq.history.map toServerEntry) limit
          = (rq.history.map toServerEntry).drop k) ∧
      (∀ c : Client, (syncEffect c).storage = some c.messages) := by
  have hb : (jsTrim input == "") = false := by simp [h]
  refine ⟨⟨jsTrim input, msgs.map toHistoryMsg, 10⟩, ?_, rfl, ?_, ?_, ?_, fun c => rfl⟩
  · cases r with
    | netError => simp [handleSubmit, hb]
    | resp ok output => cases ok <;> simp [handleSubmit, hb]
  · simp [optimisticMessages, toHistoryMsg]
  · cases r with
    | netError =>
      exact ⟨{ sender := "model", text := failedFetchText },
        by simp [handleSubmit, hb, optimisticMessages]⟩
    | resp ok output =>
      cases ok with
      | false =>
        exact ⟨{ sender := "model", text := failedFetchText },
          by simp [handleSubmit, hb, optimisticMessages]⟩
      | true =>
        exact ⟨{ sender := "model", text := jsOr output "No response from Gemini." },
          by simp [handleSubmit, hb, optimisticMessages]⟩
  · intro limit
    exact ⟨_, rfl⟩

/-- Witness for C7 at one prior message, input " Hi " and a network error. -/
theorem client_displayed_superset_witness :
    ∃ rq, (handleSubmit [⟨"user", "a"⟩] " Hi " FetchRes.netError).request = some rq ∧
      rq.history = ([⟨"user", "a"⟩] : List CMsg).map toHistoryMsg ∧
      (optimisticMessages [⟨"user", "a"⟩] " Hi ").map toHistoryMsg
          = rq.history ++ [{ role := "user", text := jsTrim " Hi " }] ∧
      (∃ reply, (handleSubmit [⟨"user", "a"⟩] " Hi " FetchRes.netError).messages
          = optimisticMessages [⟨"user", "a"⟩] " Hi " ++ [reply]) ∧
      (∀ limit : Int, ∃ k, recentHistory (rq.history.map toServerEntry) limit
          = (rq.history.map toServerEntry).drop k) ∧
      (∀ c : Client, (syncEffect c).storage = some c.messages) :=
  client_displayed_superset [⟨"user", "a"⟩] " Hi " .netError (by decide)

/-- C8: the Clear Chat action leaves the in-memory list empty and the
persisted entry holding the empty conversation (the onClick removes the
entry and the messages mirror effect then rewrites it as the serialized
empty list), and a subsequent reload shows an empty conversation. -/
theorem clear_chat_empties (c : Client) :
    (clearChat c).messages = [] ∧ (clearChat c).storage = some [] ∧
    (reload (clearChat c).storage).messages = [] :=
  ⟨rfl, rfl, rfl⟩

/-- C9: when the fetch fails (network error or non-OK response), exactly
one fixed placeholder reply is appended after the optimistic user message,
nothing is rethrown, and loading ends so input is re-enabled. -/
theorem client_fetch_failure_placeholder (msgs : List CMsg) (input : String) (r : FetchRes)
    (hin : ¬ jsTrim input = "")
    (hfail : r = .netError ∨ ∃ b, r = .resp false b) :
    (handleSubmit msgs input r).messages
        = optimisticMessages msgs input ++ [{ sender := "model", text := failedFetchText }] ∧
    (handleSubmit msgs input r).isLoading = false ∧
    (handleSubmit msgs input r).rethrown = none := by
  have hb : (jsTrim input == "") = false := by simp [hin]
  rcases hfail with h | ⟨b, h⟩ <;> subst h <;>
    exact ⟨by simp [handleSubmit, hb, optimisticMessages],
      by simp [handleSubmit, hb], by simp [handleSubmit, hb]⟩

/-- Witness for C9: empty prior history, input "Hi", network error. -/
theorem client_fetch_failure_placeholder_witness :
    (handleSubmit [] "Hi" FetchRes.netError).messages
        = optimisticMessages [] "Hi" ++ [{ sender := "model", text := failedFetchText }] ∧
    (handleSubmit [] "Hi" FetchRes.netError).isLoading = false ∧
    (handleSubmit [] "Hi" FetchRes.netError).rethrown = none :=
  client_fetch_failure_placeholder [] "Hi" .netError (by decide) (Or.inl rfl)
